import Mathlib

/-!
Verification of the `mask` data-masking engine against its specification.

The definitions below are a shallow embedding of the repository's Python
source.  File and line references point into the repository:

* `masker.py` — the group scheduler (`main`);
* `mask/rules/rules_factory.py` — `RulesFactory.create_rule`;
* `mask/rules/rule.py` — the rule base classes;
* `mask/rules/data_rules.py` — the data-mutation rule family;
* `mask/rules/database_object_rules.py` — the object-toggle rule family;
* `mask/rules/command_rules.py` — the ad-hoc command rules;
* `mask/database_access/database_gateway.py` — the SQL Server gateway;
* `mask/database/database_context.py` — the driver-facing contexts.

The repository does not ship `mask/config/constants.py` (the `Constants`
class) nor the final `mask/rules/rule.py` base carrying the `group`
attribute, although both are imported and used by the files above; those
pieces are modelled from the specification and are marked as such in
their doc comments.
-/

namespace Mask

/-- Typed column values as they appear in a `Record` (a row read from a
table): SQL null, integers, and string-like values (strings, dates
rendered as strings).  Mirrors the three `isinstance` branches of the
SQL Server gateway's literal rendering. -/
inductive Value where
  | null : Value
  | int (n : Int) : Value
  | str (s : String) : Value
deriving DecidableEq

/-- A record: a mapping of column name to typed value, embedded as an
association list in column order (Python dicts preserve insertion
order). -/
abbrev Record := List (String × Value)

/-- Looking a column up in a record (`record[column]` for a present
key; `none` models a missing key, on which the Python code would raise
`KeyError`). -/
def lookupColumn (r : Record) (c : String) : Option Value :=
  (r.find? (fun p => p.1 = c)).map (fun p => p.2)

/-- Modelled from the spec: `Constants.DEFAULT_WHERE_CLAUSE` from the
missing `mask/config/constants.py`.  The spec describes it as "an
always-true base predicate" seeding every generated where-clause. -/
def defaultWhereClause : String := "where 1 = 1"

/-- Modelled from the spec: `Constants.MAX_RETRY_ATTEMPTS` from the
missing `mask/config/constants.py`.  The spec fixes the reference value:
"9 retries after the first attempt, i.e., 10 attempts total". -/
def maxRetryAttempts : Nat := 10

/-! ### Fake-SSN generator
`FakeSsnSubstitutionRule._generate_invalid_ssn`
(`mask/rules/data_rules.py` lines 206-244). -/

/-- The ITIN-reserved group numbers, copied verbatim from
`_generate_invalid_ssn` (note that 89 and 93 are absent). -/
def itinGroupNumbers : List Nat :=
  [70, 71, 72, 73, 74, 75, 76, 77, 78, 79,
   80, 81, 82, 83, 84, 85, 86, 87, 88,
   90, 91, 92, 94, 95, 96, 97, 98, 99]

/-- `[x for x in range(0, 100) if x not in itin_group_numbers]`. -/
def nonItinGroups : List Nat :=
  (List.range 100).filter (fun x => !(itinGroupNumbers.contains x))

/-- `random.choice(l)` modelled by an arbitrary index into the list
(reduced modulo its length); any element of the list is reachable. -/
def chooseFrom (l : List Nat) (pick : Nat) : Nat :=
  l.getD (pick % l.length) 0

/-- The three numeric components of a generated SSN. -/
structure SsnParts where
  area : Nat
  group : Nat
  serial : Nat
deriving DecidableEq

/-- The draw-adjustment logic of `_generate_invalid_ssn`: `area`,
`group`, `serial` are the three uniform draws (`randint(0, 999)`,
`randint(0, 99)`, `randint(0, 9999)`), `pick` models the
`random.choice` over the non-ITIN group list, and `zeroGroup` models
`random.choice(["group", "serial"])` (`true` meaning `"group"`). -/
def generateInvalidSsnParts (area group serial pick : Nat) (zeroGroup : Bool) :
    SsnParts :=
  if 900 ≤ area then
    ⟨area, chooseFrom nonItinGroups pick, serial⟩
  else if area < 900 ∧ area ≠ 666 ∧ area ≠ 0 then
    if zeroGroup then ⟨area, 0, serial⟩ else ⟨area, group, 0⟩
  else
    ⟨area, group, serial⟩

/-- Zero-padded decimal rendering, as in `f"{n:03d}"`. -/
def zeroPad (width n : Nat) : String :=
  let s := toString n
  String.mk (List.replicate (width - s.length) (Char.ofNat 48)) ++ s

/-- The formatted return value of `_generate_invalid_ssn`:
`f"{area:03d}{sep}{group:02d}{sep}{serial:04d}"`. -/
def formatSsn (sep : String) (p : SsnParts) : String :=
  zeroPad 3 p.area ++ sep ++ zeroPad 2 p.group ++ sep ++ zeroPad 4 p.serial

/-! ### Group scheduler
`main` in `masker.py` (lines 22-58).  Rules are opaque values carrying an
integer group tag, accessed through a projection `grp`; the scheduler's
observable behaviour is a trace of launch/finish events. -/

/-- An observable scheduler event: a rule's thread is started
(`threading.Thread(target=...).start()`), or has returned and been
joined. -/
inductive SchedEvent (ρ : Type) where
  | launch (r : ρ)
  | finish (r : ρ)
deriving DecidableEq

/-- The rule an event belongs to. -/
def SchedEvent.rule {ρ : Type} : SchedEvent ρ → ρ
  | .launch r => r
  | .finish r => r

/-- The group tag of an event's rule. -/
def eventGroup {ρ : Type} (grp : ρ → Int) (e : SchedEvent ρ) : Int :=
  grp e.rule

/-- The `groups` list built in `masker.main` (lines 30-35): the distinct
group numbers of the rules, in first-encounter order. -/
def collectGroups {ρ : Type} (grp : ρ → Int) (rules : List ρ) : List Int :=
  rules.foldl (fun acc r => if grp r ∈ acc then acc else acc ++ [grp r]) []

/-- `groups.sort(reverse=True)` (line 44): sort the group numbers in
descending order. -/
def sortGroupsDescending (l : List Int) : List Int :=
  List.insertionSort (· ≥ ·) l

/-- The order in which the `while groups: group = groups.pop()` loop
(lines 46-47) processes groups: popping from the end of the
descending-sorted list yields the groups in ascending order. -/
def processedGroups {ρ : Type} (grp : ρ → Int) (rules : List ρ) : List Int :=
  (sortGroupsDescending (collectGroups grp rules)).reverse

/-- `[r for r in rule_controller if r.group == group]` (line 48). -/
def rulesInGroup {ρ : Type} (grp : ρ → Int) (rules : List ρ) (g : Int) :
    List ρ :=
  rules.filter (fun r => decide (grp r = g))

/-- The events of one group iteration (lines 51-58): every rule in the
group is launched, and the loop of `join()` calls blocks until every
one of them has finished before the next group is taken. -/
def groupEvents {ρ : Type} (grp : ρ → Int) (rules : List ρ) (g : Int) :
    List (SchedEvent ρ) :=
  (rulesInGroup grp rules g).map SchedEvent.launch ++
    (rulesInGroup grp rules g).map SchedEvent.finish

/-- The full event trace of `masker.main`'s scheduling loop. -/
def schedTrace {ρ : Type} (grp : ρ → Int) (rules : List ρ) :
    List (SchedEvent ρ) :=
  (processedGroups grp rules).flatMap (groupEvents grp rules)

/-! ### Rule factory and validation
`RulesFactory.create_rule` (`mask/rules/rules_factory.py` lines 27-174)
and the `validate_instructions` methods of the rule classes. -/

/-- A field value of an instruction record: a JSON string or integer. -/
inductive FieldVal where
  | s (v : String) : FieldVal
  | i (v : Int) : FieldVal
deriving DecidableEq

/-- An instruction: a JSON-shaped mapping of field names to values. -/
abbrev Instruction := List (String × FieldVal)

/-- `instructions[key]` returning `none` for a missing key (Python raises
`KeyError`). -/
def getField (ins : Instruction) (k : String) : Option FieldVal :=
  (ins.find? (fun p => p.1 = k)).map (fun p => p.2)

/-- The fourteen rule variants dispatched by `RulesFactory.create_rule`. -/
inductive RuleKind where
  | fakeStringSubstitution
  | staticStringSubstitution
  | fakeSsnSubstitution
  | dateVariance
  | truncateTable
  | deleteRows
  | adhocCommand
  | adhocScript
  | disableTrigger
  | enableTrigger
  | disableCheckConstraint
  | enableCheckConstraint
  | disableForeignKey
  | enableForeignKey
deriving DecidableEq

/-- Maps `instructions["rule"]` to a rule variant; any other value falls
through to the factory's `ValueError` (`'...' is not a recognized rule
type`). -/
def kindOfDiscriminator : FieldVal → Option RuleKind
  | .s "fake_string_substitution" => some .fakeStringSubstitution
  | .s "static_string_substitution" => some .staticStringSubstitution
  | .s "fake_ssn_substitution" => some .fakeSsnSubstitution
  | .s "date_variance" => some .dateVariance
  | .s "truncate_table" => some .truncateTable
  | .s "delete_rows" => some .deleteRows
  | .s "adhoc_command" => some .adhocCommand
  | .s "adhoc_script" => some .adhocScript
  | .s "disable_trigger" => some .disableTrigger
  | .s "enable_trigger" => some .enableTrigger
  | .s "disable_check_constraint" => some .disableCheckConstraint
  | .s "enable_check_constraint" => some .enableCheckConstraint
  | .s "disable_foreign_key" => some .disableForeignKey
  | .s "enable_foreign_key" => some .enableForeignKey
  | _ => none

/-- The instruction keys (besides `group`) each factory branch copies into
the rule's constructor; a missing key raises `KeyError`. -/
def requiredFieldKeys : RuleKind → List String
  | .fakeStringSubstitution =>
      ["database", "schema", "table", "column", "where_clause",
       "data_set_path", "data_set_key"]
  | .staticStringSubstitution =>
      ["database", "schema", "table", "column", "static_value", "where_clause"]
  | .fakeSsnSubstitution =>
      ["database", "schema", "table", "column", "seperator", "ignore_null"]
  | .dateVariance =>
      ["database", "schema", "table", "column", "range", "where_clause", "method"]
  | .truncateTable => ["database", "schema", "table"]
  | .deleteRows => ["database", "schema", "table", "where_clause"]
  | .adhocCommand => ["command"]
  | .adhocScript => ["script"]
  | .disableTrigger => ["database", "schema", "table", "trigger"]
  | .enableTrigger => ["database", "schema", "table", "trigger"]
  | .disableCheckConstraint => ["database", "schema", "table", "check_constraint"]
  | .enableCheckConstraint => ["database", "schema", "table", "check_constraint"]
  | .disableForeignKey => ["database", "schema", "table", "foreign_key"]
  | .enableForeignKey => ["database", "schema", "table", "foreign_key"]

/-- A constructed rule: its variant, its `group` attribute, and the fields
copied from the instruction. -/
structure MaskRule where
  kind : RuleKind
  group : FieldVal
  fields : Instruction
deriving DecidableEq

/-- Access to a copied field of a rule. -/
def MaskRule.field (r : MaskRule) (k : String) : Option FieldVal :=
  getField r.fields k

/-- The errors that abort rule construction: `KeyError` for a missing
instruction key, the factory's `ValueError` for an unrecognized
discriminator, and the `ValueError`/`FileNotFoundError` raised by
`validate_instructions` (tagged with the offending property). -/
inductive FactoryError where
  | missingKey (k : String) : FactoryError
  | unknownRule : FactoryError
  | invalid (what : String) : FactoryError
deriving DecidableEq

/-- A field value rendered as a string (for `os.path.exists` checks). -/
def FieldVal.asString : Option FieldVal → String
  | some (.s v) => v
  | some (.i n) => toString n
  | none => ""

/-- Modelled from the spec: the base `Rule.validate_instructions` of the
missing final `mask/rules/rule.py`, which carries the `group` attribute
(the `rule.py` shipped in the repository has no `group` field even though
`masker.py` and the factory use it).  Per the spec, `group` is a positive
integer and "validate() fails with ValidationError when required fields
are empty/malformed (including group < 1)". -/
def baseValidate (r : MaskRule) : Except FactoryError Unit :=
  match r.group with
  | .i g => if g < 1 then .error (.invalid "group") else .ok ()
  | .s _ => .error (.invalid "group")

/-- `DataRule.validate_instructions` (`data_rules.py` lines 18-25): chains
the base validation, then rejects empty `database`, `schema`, `table`. -/
def dataRuleValidate (r : MaskRule) : Except FactoryError Unit :=
  match baseValidate r with
  | .error e => .error e
  | .ok _ =>
    if r.field "database" = some (.s "") then .error (.invalid "database")
    else if r.field "schema" = some (.s "") then .error (.invalid "schema")
    else if r.field "table" = some (.s "") then .error (.invalid "table")
    else .ok ()

/-- The six `validate_instructions` bodies of
`database_object_rules.py` (lines 20-26, 97-103, 174-180, 217-223,
260-266, 303-309) are textually identical: they reject the wildcard for
`database` and `table` and do not chain to the base validation (no
`super()` call, hence no `group` check). -/
def objectToggleValidate (r : MaskRule) : Except FactoryError Unit :=
  if r.field "database" = some (.s "*") then .error (.invalid "database")
  else if r.field "table" = some (.s "*") then .error (.invalid "table")
  else .ok ()

/-- Dispatch of `validate_instructions` over the rule variants, from the
sources listed on each branch.  `env` models `os.path.exists`. -/
def validateRule (env : String → Bool) (r : MaskRule) :
    Except FactoryError Unit :=
  match r.kind with
  | .fakeStringSubstitution =>
    -- FakeStringSubstitutionRule.validate_instructions (data_rules.py 40-47)
    match dataRuleValidate r with
    | .error e => .error e
    | .ok _ =>
      if r.field "column" = some (.s "") then .error (.invalid "column")
      else if !(env (FieldVal.asString (r.field "data_set_path"))) then
        .error (.invalid "data_set_path")
      else if r.field "data_set_key" = some (.s "") then
        .error (.invalid "data_set_key")
      else .ok ()
  | .staticStringSubstitution =>
    -- StaticStringSubstitutionRule.validate_instructions (data_rules.py 102-105)
    match dataRuleValidate r with
    | .error e => .error e
    | .ok _ =>
      if r.field "column" = some (.s "") then .error (.invalid "column")
      else .ok ()
  | .fakeSsnSubstitution =>
    -- FakeSsnSubstitutionRule.validate_instructions (data_rules.py 134-142)
    match dataRuleValidate r with
    | .error e => .error e
    | .ok _ =>
      if r.field "column" = some (.s "") then .error (.invalid "column")
      else if r.field "ignore_null" ≠ some (.s "yes") ∧
          r.field "ignore_null" ≠ some (.s "no") then
        .error (.invalid "ignore_null")
      else .ok ()
  | .dateVariance =>
    -- DateVarianceRule.validate_instructions (data_rules.py 260-269)
    match dataRuleValidate r with
    | .error e => .error e
    | .ok _ =>
      if r.field "column" = some (.s "") then .error (.invalid "column")
      else if r.field "range" = some (.i 0) then .error (.invalid "range")
      else if r.field "method" ≠ some (.s "simple") ∧
          r.field "method" ≠ some (.s "complete") then
        .error (.invalid "method")
      else .ok ()
  | .truncateTable => dataRuleValidate r
  | .deleteRows => dataRuleValidate r
  | .adhocCommand =>
    -- AdHocCommandRule.validate_instructions (command_rules.py 15-18)
    match baseValidate r with
    | .error e => .error e
    | .ok _ =>
      if r.field "command" = some (.s "") then .error (.invalid "command")
      else .ok ()
  | .adhocScript =>
    -- AdHocScriptRule.validate_instructions (command_rules.py 27-30)
    match baseValidate r with
    | .error e => .error e
    | .ok _ =>
      if !(env (FieldVal.asString (r.field "script"))) then
        .error (.invalid "script")
      else .ok ()
  | .disableTrigger => objectToggleValidate r
  | .enableTrigger => objectToggleValidate r
  | .disableCheckConstraint => objectToggleValidate r
  | .enableCheckConstraint => objectToggleValidate r
  | .disableForeignKey => objectToggleValidate r
  | .enableForeignKey => objectToggleValidate r

/-- Copies the listed keys out of the instruction, failing with `KeyError`
on the first missing one (as evaluating the constructor's keyword
arguments does). -/
def collectFields (ins : Instruction) :
    List String → Except FactoryError Instruction
  | [] => .ok []
  | k :: ks =>
    match getField ins k with
    | none => .error (.missingKey k)
    | some v =>
      match collectFields ins ks with
      | .error e => .error e
      | .ok rest => .ok ((k, v) :: rest)

/-- `RulesFactory.create_rule` (`rules_factory.py` lines 27-174):
dispatches on `instructions["rule"]`, copies the branch's fields (a
missing key raises `KeyError`), constructs the rule, then calls
`rule.validate_instructions()` (line 173) before returning it. -/
def createRule (env : String → Bool) (ins : Instruction) :
    Except FactoryError MaskRule :=
  match getField ins "rule" with
  | none => .error (.missingKey "rule")
  | some d =>
    match kindOfDiscriminator d with
    | none => .error .unknownRule
    | some k =>
      match getField ins "group" with
      | none => .error (.missingKey "group")
      | some g =>
        match collectFields ins (requiredFieldKeys k) with
        | .error e => .error e
        | .ok flds =>
          match validateRule env ⟨k, g, flds⟩ with
          | .error e => .error e
          | .ok _ => .ok ⟨k, g, flds⟩

/-- The integer value of a rule's `group` attribute as used by the
scheduler's comparisons (validated rules always carry an integer here). -/
def maskGroupInt (r : MaskRule) : Int :=
  match r.group with
  | .i g => g
  | .s _ => 0

/-- The rule-construction loop of `masker.main` (lines 30-35): each
instruction is passed to the factory in order; the first exception aborts
the whole loop. -/
def createRules (env : String → Bool) :
    List Instruction → Except FactoryError (List MaskRule)
  | [] => .ok []
  | ins :: rest =>
    match createRule env ins with
    | .error e => .error e
    | .ok r =>
      match createRules env rest with
      | .error e => .error e
      | .ok rs => .ok (r :: rs)

/-- `masker.main` (lines 30-58): convert and validate every instruction
through the factory (any exception aborts the run here), then — unless the
rule list is empty, which just exits — run the group-scheduling loop.  The
result is the scheduler's event trace; an aborted run executes nothing. -/
def mainRun (env : String → Bool) (instrs : List Instruction) :
    Except FactoryError (List (SchedEvent MaskRule)) :=
  match createRules env instrs with
  | .error e => .error e
  | .ok rules => .ok (schedTrace maskGroupInt rules)

/-- Which rule variants chain their validation to the base
`Rule.validate_instructions` (a `super()` call reaching the `group`
check): the data-mutation family and the two ad-hoc rules do; the six
object-toggle rules do not. -/
def kindChainsToBase : RuleKind → Bool
  | .fakeStringSubstitution => true
  | .staticStringSubstitution => true
  | .fakeSsnSubstitution => true
  | .dateVariance => true
  | .truncateTable => true
  | .deleteRows => true
  | .adhocCommand => true
  | .adhocScript => true
  | .disableTrigger => false
  | .enableTrigger => false
  | .disableCheckConstraint => false
  | .enableCheckConstraint => false
  | .disableForeignKey => false
  | .enableForeignKey => false

/-- The data-mutation rule variants (subclasses of `DataRule`). -/
def isDataKind : RuleKind → Bool
  | .fakeStringSubstitution => true
  | .staticStringSubstitution => true
  | .fakeSsnSubstitution => true
  | .dateVariance => true
  | .truncateTable => true
  | .deleteRows => true
  | _ => false

/-- A concrete `disable_trigger` instruction whose `group` is 0. -/
def toggleInstructionGroupZero : Instruction :=
  [("rule", .s "disable_trigger"), ("group", .i 0), ("database", .s "mydb"),
   ("schema", .s "dbo"), ("table", .s "customer"), ("trigger", .s "trg_audit")]

/-- The rule the factory builds from `toggleInstructionGroupZero`. -/
def toggleRuleGroupZero : MaskRule :=
  ⟨.disableTrigger, .i 0,
   [("database", .s "mydb"), ("schema", .s "dbo"), ("table", .s "customer"),
    ("trigger", .s "trg_audit")]⟩

/-! ### SQL Server gateway clause builders
`SqlServerDatabaseGateway` (`mask/database_access/database_gateway.py`). -/

/-- The single-quote character as a string (used to quote string-like
literals). -/
def sq : String := String.singleton (Char.ofNat 39)

/-- One conjunct of the generated where-clause (lines 153-160): `IS NULL`
for a null value, a bare numeric literal for an integer, and a quoted
literal otherwise. -/
def renderCondition (c : String) (v : Value) : String :=
  match v with
  | .null => " and [" ++ c ++ "] is NULL "
  | .int n => " and [" ++ c ++ "] = " ++ toString n ++ " "
  | .str s => " and [" ++ c ++ "] = " ++ sq ++ s ++ sq ++ " "

/-- `{x: record[x] for x in primary_key}` (line 151): the record reduced to
the primary-key columns, in primary-key order; a column absent from the
record raises `KeyError`. -/
def restrict_record_to_primary_key (record : Record) :
    List String → Except Unit Record
  | [] => .ok []
  | c :: cs =>
    match lookupColumn record c with
    | none => .error ()
    | some v =>
      match restrict_record_to_primary_key record cs with
      | .error e => .error e
      | .ok rest => .ok ((c, v) :: rest)

/-- `SqlServerDatabaseGateway.generate_where_clause_from_record`
(lines 141-162): seeds the clause with the always-true base predicate,
restricts the record to the primary-key columns when a non-empty primary
key is given, and appends one rendered conjunct per remaining column. -/
def generate_where_clause_from_record (record : Record)
    (primary_key : List String) : Except Unit String :=
  match (if primary_key ≠ [] then restrict_record_to_primary_key record primary_key
         else .ok record) with
  | .error e => .error e
  | .ok reduced =>
    .ok (reduced.foldl (fun acc p => acc ++ renderCondition p.1 p.2)
      defaultWhereClause)

/-- Concatenation of a list of clause fragments, in order. -/
def joinFragments : List String → String
  | [] => ""
  | x :: xs => x ++ joinFragments xs

/-- `SqlServerDatabaseGateway.generate_update_set_clause_for_column`
(lines 164-171). -/
def generate_update_set_clause_for_column (column : String) (v : Value) :
    String :=
  match v with
  | .null => " set [" ++ column ++ "] = NULL"
  | .int n => " set [" ++ column ++ "] = " ++ toString n ++ " "
  | .str s => " set [" ++ column ++ "] = " ++ sq ++ s ++ sq

/-- `SqlServerDatabaseGateway.append_where_column_is_not_null`
(lines 173-177): an empty (or absent) clause is replaced by the base
predicate before the `is not null` conjunct is appended. -/
def append_where_column_is_not_null (column : String)
    (where_clause : String) : String :=
  (if where_clause = "" then defaultWhereClause else where_clause) ++
    " and [" ++ column ++ "] is not null "

/-! ### Database-object toggle rules
`mask/rules/database_object_rules.py`.  The six rule classes
(`DisableTriggerRule`, `EnableTriggerRule`, `DisableCheckConstraintRule`,
`EnableCheckConstraintRule`, `DisableForeignKeyRule`,
`EnableForeignKeyRule`) have the same four fields — `database`, `schema`,
`table`, and an object-name field (`trigger` / `check_constraint` /
`foreign_key`) — and textually identical control flow. -/

/-- The common field shape of the six object-toggle rule classes;
`objectName` stands for the per-class object-name field. -/
structure ObjectToggleFields where
  database : String
  schema : String
  table : String
  objectName : String
deriving DecidableEq

/-- The gateway operations an object-toggle rule can invoke (three
granularities for each of the six enable/disable kinds, mirroring the
`DatabaseGateway` methods each `execute` body calls). -/
inductive GatewayCall where
  | disable_all_triggers_for_database (database : String)
  | disable_all_triggers_for_table (database schema table : String)
  | disable_single_trigger_for_table (database schema table trigger : String)
  | enable_all_triggers_for_database (database : String)
  | enable_all_triggers_for_table (database schema table : String)
  | enable_single_trigger_for_table (database schema table trigger : String)
  | disable_all_check_constraints_for_database (database : String)
  | disable_all_check_constraints_for_table (database schema table : String)
  | disable_single_check_constraint_for_table
      (database schema table check_constraint : String)
  | enable_all_check_constraints_for_database (database : String)
  | enable_all_check_constraints_for_table (database schema table : String)
  | enable_single_check_constraint_for_table
      (database schema table check_constraint : String)
  | disable_all_foreign_keys_for_database (database : String)
  | disable_all_foreign_keys_for_table (database schema table : String)
  | disable_single_foreign_key_for_table
      (database schema table foreign_key : String)
  | enable_all_foreign_keys_for_database (database : String)
  | enable_all_foreign_keys_for_table (database schema table : String)
  | enable_single_foreign_key_for_table
      (database schema table foreign_key : String)
deriving DecidableEq

/-- The shared `validate_instructions` body of the six object-toggle rule
classes: the wildcard is forbidden for `database` and for `table`,
regardless of every other field. -/
def objectToggleValidateFields (r : ObjectToggleFields) :
    Except Unit Unit :=
  if r.database = "*" then .error ()
  else if r.table = "*" then .error ()
  else .ok ()

/-- `DisableTriggerRule.execute` (lines 63-80). -/
def disableTriggerExecute (r : ObjectToggleFields) : GatewayCall :=
  if r.schema = "*" then .disable_all_triggers_for_database r.database
  else if r.objectName = "*" then
    .disable_all_triggers_for_table r.database r.schema r.table
  else .disable_single_trigger_for_table r.database r.schema r.table r.objectName

/-- `EnableTriggerRule.execute` (lines 140-157). -/
def enableTriggerExecute (r : ObjectToggleFields) : GatewayCall :=
  if r.schema = "*" then .enable_all_triggers_for_database r.database
  else if r.objectName = "*" then
    .enable_all_triggers_for_table r.database r.schema r.table
  else .enable_single_trigger_for_table r.database r.schema r.table r.objectName

/-- `DisableCheckConstraintRule.execute` (lines 182-200). -/
def disableCheckConstraintExecute (r : ObjectToggleFields) : GatewayCall :=
  if r.schema = "*" then .disable_all_check_constraints_for_database r.database
  else if r.objectName = "*" then
    .disable_all_check_constraints_for_table r.database r.schema r.table
  else .disable_single_check_constraint_for_table r.database r.schema r.table
    r.objectName

/-- `EnableCheckConstraintRule.execute` (lines 225-243). -/
def enableCheckConstraintExecute (r : ObjectToggleFields) : GatewayCall :=
  if r.schema = "*" then .enable_all_check_constraints_for_database r.database
  else if r.objectName = "*" then
    .enable_all_check_constraints_for_table r.database r.schema r.table
  else .enable_single_check_constraint_for_table r.database r.schema r.table
    r.objectName

/-- `DisableForeignKeyRule.execute` (lines 268-286). -/
def disableForeignKeyExecute (r : ObjectToggleFields) : GatewayCall :=
  if r.schema = "*" then .disable_all_foreign_keys_for_database r.database
  else if r.objectName = "*" then
    .disable_all_foreign_keys_for_table r.database r.schema r.table
  else .disable_single_foreign_key_for_table r.database r.schema r.table
    r.objectName

/-- `EnableForeignKeyRule.execute` (lines 311-329). -/
def enableForeignKeyExecute (r : ObjectToggleFields) : GatewayCall :=
  if r.schema = "*" then .enable_all_foreign_keys_for_database r.database
  else if r.objectName = "*" then
    .enable_all_foreign_keys_for_table r.database r.schema r.table
  else .enable_single_foreign_key_for_table r.database r.schema r.table
    r.objectName

/-! ### Date variance, "simple" strategy
`DateVarianceRule._execute_simple_method` (`data_rules.py` lines 279-303)
and `SqlServerDatabaseGateway.update_date_column_with_random_variance`
(`database_gateway.py` lines 224-240). -/

/-- `range_min = 1 if self.range > 0 else -1` (`data_rules.py` line 288). -/
def simple_method_range_min (range : Int) : Int :=
  if 0 < range then 1 else -1

/-- The day offset computed server-side by the generated SQL
`dateadd(day, (range_min + floor(rand() * (range_max + 1 - range_min))), ...)`
(`database_gateway.py` line 237); `r` is the value of `rand()`, a real
number in [0, 1), modelled as a rational. -/
def update_date_random_offset (range_min range_max : Int) (r : ℚ) : Int :=
  range_min + ⌊r * ((range_max : ℚ) + 1 - (range_min : ℚ))⌋

/-- The offset the simple strategy applies: `_execute_simple_method` passes
`range_min` as above and `range_max = self.range`. -/
def simple_method_offset (range : Int) (r : ℚ) : Int :=
  update_date_random_offset (simple_method_range_min range) range r

/-- The simple strategy's effect on the matched non-null dates (days since
an epoch): a single `UPDATE` adds the same server-computed offset to every
row. -/
def date_variance_simple_shift (range : Int) (r : ℚ) (dates : List Int) :
    List Int :=
  dates.map (fun d0 => d0 + simple_method_offset range r)

/-! ### Fake-SSN substitution execution
`FakeSsnSubstitutionRule.execute` (`data_rules.py` lines 144-204).
`gen` enumerates the outcomes of successive `_generate_invalid_ssn`
calls; `used` is `list_of_used_invalid_ssns`. -/

/-- The inner `while not is_unique` retry loop (lines 170-183): each
iteration first checks `retry_attempts >= Constants.MAX_RETRY_ATTEMPTS`
(raising the generation-exhausted `ValueError`), then draws a candidate;
a collision consumes one unit of the remaining retry budget (the `fuel`
argument, initially `maxRetryAttempts`), a fresh value is appended to the
used list and returned. -/
def find_unique_invalid_ssn (gen : Nat → String) (used : List String) :
    Nat → Nat → Except Unit (String × Nat)
  | _, 0 => .error ()
  | k, fuel + 1 =>
    if gen k ∈ used then find_unique_invalid_ssn gen used (k + 1) fuel
    else .ok (gen k, k + 1)

/-- The `for record in records` body (lines 168-204): every returned record
— with no null check — gets a freshly generated unique SSN and one
`update_rows` call; the used list grows by each assigned value. -/
def execute_fake_ssn_loop (gen : Nat → String) :
    List Record → List String → Nat → Except Unit (List (Record × String))
  | [], _, _ => .ok []
  | rec :: rest, used, k =>
    match find_unique_invalid_ssn gen used k maxRetryAttempts with
    | .error e => .error e
    | .ok (c, k2) =>
      match execute_fake_ssn_loop gen rest (used ++ [c]) k2 with
      | .error e => .error e
      | .ok tail => .ok ((rec, c) :: tail)

/-- One execution of `FakeSsnSubstitutionRule.execute` over the returned
records: the used list starts empty; the result pairs each updated record
with its assigned SSN, or fails with the generation-exhausted error. -/
def execute_fake_ssn (gen : Nat → String) (records : List Record) :
    Except Unit (List (Record × String)) :=
  execute_fake_ssn_loop gen records [] 0

/-- The row-selection clause of `FakeSsnSubstitutionRule.execute`
(lines 146-152): the default clause, with the `is not null` filter
appended only when `ignore_null` is the affirmative option `"yes"`. -/
def fake_ssn_select_where_clause (ignore_null column : String) : String :=
  if ignore_null = "yes" then
    append_where_column_is_not_null column defaultWhereClause
  else defaultWhereClause

/-- `record[self.column] is None` as tested by
`FakeStringSubstitutionRule.execute` (line 70). -/
def recColIsNull (rec : Record) (col : String) : Bool :=
  decide (lookupColumn rec col = some Value.null)

/-- The per-row loop of `FakeStringSubstitutionRule.execute`
(lines 69-91), projected onto which rows receive an `update_rows` call:
a row whose target column is null is skipped (`continue`). -/
def fake_string_rows_updated : List Record → String → List Record
  | [], _ => []
  | rec :: rest, col =>
    if recColIsNull rec col then fake_string_rows_updated rest col
    else rec :: fake_string_rows_updated rest col

/-! ### Driver-failure propagation
`mask/database/database_context.py`.  Each context method opens a
connection and performs one driver call; its behaviour is modelled as a
function of that single call's outcome. -/

/-- The outcome of the underlying driver call (`cursor.execute` plus
commit/fetch): success, or an exception carrying a message. -/
inductive DriverOutcome where
  | success : DriverOutcome
  | failure (e : String) : DriverOutcome
deriving DecidableEq

/-- What the context method does with the driver outcome: return normally,
re-raise the exception to the caller, or catch it and merely log it before
returning normally. -/
inductive CallResult where
  | completed : CallResult
  | raisedToCaller (e : String) : CallResult
  | caughtAndLogged (e : String) : CallResult
deriving DecidableEq

/-- `SqlServerDatabaseContext.query` (lines 49-77): a bare
`try`/`finally`, so a driver exception propagates to the caller. -/
def sqlServerContextQuery : DriverOutcome → CallResult
  | .success => .completed
  | .failure e => .raisedToCaller e

/-- `SqlServerDatabaseContext.execute` (lines 79-105): wraps the driver
call in `try ... except Exception as ex:` whose body only prints the
query, the values and the exception — the exception is not re-raised and
the method returns normally. -/
def sqlServerContextExecute : DriverOutcome → CallResult
  | .success => .completed
  | .failure e => .caughtAndLogged e

/-- `PostgresDatabaseContext.query` (lines 124-152): `try`/`finally`,
propagates. -/
def postgresContextQuery : DriverOutcome → CallResult
  | .success => .completed
  | .failure e => .raisedToCaller e

/-- `PostgresDatabaseContext.execute` (lines 154-177): `try`/`finally`,
propagates. -/
def postgresContextExecute : DriverOutcome → CallResult
  | .success => .completed
  | .failure e => .raisedToCaller e

/-- Every SQL Server gateway write operation (`update_rows`,
`delete_rows`, `truncate_table`,
`update_date_column_with_random_variance`, and the eighteen DDL toggles in
`database_gateway.py`) delegates directly to
`self._database_context.execute`, performing no retry of its own. -/
def sqlServerGatewayWriteResult (o : DriverOutcome) : CallResult :=
  sqlServerContextExecute o

end Mask

namespace Mask

/-! ### Helper lemmas for the generator -/

theorem chooseFrom_mem (l : List Nat) (pick : Nat) (h : l ≠ []) :
    chooseFrom l pick ∈ l := by
  unfold chooseFrom
  have hlen : 0 < l.length := List.length_pos.mpr h
  have hlt : pick % l.length < l.length := Nat.mod_lt _ hlen
  rw [List.getD_eq_getElem l 0 hlt]
  exact List.getElem_mem hlt

theorem nonItinGroups_not_itin (x : Nat) (hx : x ∈ nonItinGroups) :
    x ∉ itinGroupNumbers := by
  have := List.of_mem_filter hx
  simpa using this

/-- Claim C2: every value produced by the fake-SSN generator satisfies at
least one structural-invalidity condition — area ≥ 900, or area ∈ {0, 666},
or group = 0, or serial = 0 — and whenever area ≥ 900 the group component is
never in the ITIN-reserved group set; this holds for all outcomes of the
random draws. -/
theorem fakeSsn_generated_value_invalid (area group serial pick : Nat)
    (zeroGroup : Bool) :
    (900 ≤ (generateInvalidSsnParts area group serial pick zeroGroup).area ∨
      (generateInvalidSsnParts area group serial pick zeroGroup).area = 0 ∨
      (generateInvalidSsnParts area group serial pick zeroGroup).area = 666 ∨
      (generateInvalidSsnParts area group serial pick zeroGroup).group = 0 ∨
      (generateInvalidSsnParts area group serial pick zeroGroup).serial = 0) ∧
    (900 ≤ (generateInvalidSsnParts area group serial pick zeroGroup).area →
      (generateInvalidSsnParts area group serial pick zeroGroup).group ∉
        itinGroupNumbers) := by
  unfold generateInvalidSsnParts
  split_ifs with h1 h2 h3 <;> dsimp only
  · refine ⟨Or.inl h1, fun _ => ?_⟩
    exact nonItinGroups_not_itin _ (chooseFrom_mem nonItinGroups pick (by decide))
  · exact ⟨Or.inr (Or.inr (Or.inr (Or.inl rfl))), fun hc => absurd hc (by omega)⟩
  · exact ⟨Or.inr (Or.inr (Or.inr (Or.inr rfl))), fun hc => absurd hc (by omega)⟩
  · have harea : area = 666 ∨ area = 0 := by
      rcases eq_or_ne area 666 with h | h
      · exact Or.inl h
      rcases eq_or_ne area 0 with h0 | h0
      · exact Or.inr h0
      exact absurd ⟨by omega, h, h0⟩ h2
    refine ⟨?_, fun hc => absurd hc (by omega)⟩
    rcases harea with h | h
    · exact Or.inr (Or.inr (Or.inl h))
    · exact Or.inr (Or.inl h)

/-- Witness for C2: a concrete draw with area ≥ 900 — the hypothesis of the
ITIN-avoidance implication is discharged at area = 950. -/
theorem fakeSsn_generated_value_invalid_witness :
    (generateInvalidSsnParts 950 75 1234 3 true).group ∉ itinGroupNumbers :=
  (fakeSsn_generated_value_invalid 950 75 1234 3 true).2 (by decide)

/-! ### Scheduler lemmas -/

theorem collectGroups_foldl_mem {ρ : Type} (grp : ρ → Int) (x : Int) :
    ∀ (rules : List ρ) (acc : List Int), x ∈ acc →
      x ∈ rules.foldl (fun acc r => if grp r ∈ acc then acc else acc ++ [grp r]) acc := by
  intro rules
  induction rules with
  | nil => intro acc h; simpa using h
  | cons a as ih =>
    intro acc h
    simp only [List.foldl_cons]
    split_ifs with hmem
    · exact ih acc h
    · exact ih (acc ++ [grp a]) (List.mem_append_left _ h)

theorem mem_collectGroups_of_mem {ρ : Type} (grp : ρ → Int) (r : ρ) :
    ∀ (rules : List ρ) (acc : List Int), r ∈ rules →
      grp r ∈ rules.foldl (fun acc r => if grp r ∈ acc then acc else acc ++ [grp r]) acc := by
  intro rules
  induction rules with
  | nil => intro acc h; cases h
  | cons a as ih =>
    intro acc h
    simp only [List.foldl_cons]
    rcases List.mem_cons.mp h with rfl | hmem
    · split_ifs with hin
      · exact collectGroups_foldl_mem grp _ as _ hin
      · exact collectGroups_foldl_mem grp _ as _
          (List.mem_append_right _ (List.mem_singleton.mpr rfl))
    · exact ih _ hmem

theorem collectGroups_nodup {ρ : Type} (grp : ρ → Int) (rules : List ρ) :
    (collectGroups grp rules).Nodup := by
  suffices h : ∀ (rules : List ρ) (acc : List Int), acc.Nodup →
      (rules.foldl (fun acc r => if grp r ∈ acc then acc else acc ++ [grp r]) acc).Nodup by
    exact h rules [] List.nodup_nil
  intro rules
  induction rules with
  | nil => intro acc h; simpa using h
  | cons a as ih =>
    intro acc h
    simp only [List.foldl_cons]
    split_ifs with hmem
    · exact ih acc h
    · refine ih _ (List.nodup_append.mpr ⟨h, List.nodup_singleton _, ?_⟩)
      intro x hx
      simp only [List.mem_singleton]
      intro heq
      exact hmem (heq ▸ hx)

theorem processedGroups_sorted {ρ : Type} (grp : ρ → Int) (rules : List ρ) :
    (processedGroups grp rules).Sorted (· < ·) := by
  have hsorted : (sortGroupsDescending (collectGroups grp rules)).Sorted (· ≥ ·) :=
    List.sorted_insertionSort _ _
  have hle : (processedGroups grp rules).Sorted (· ≤ ·) := by
    rw [processedGroups, List.Sorted, List.pairwise_reverse]
    exact hsorted
  have hnodup : (processedGroups grp rules).Nodup := by
    rw [processedGroups, List.nodup_reverse]
    exact (List.perm_insertionSort _ _).nodup_iff.mpr (collectGroups_nodup grp rules)
  exact hle.lt_of_le hnodup

theorem mem_processedGroups_of_mem {ρ : Type} (grp : ρ → Int) (rules : List ρ)
    (r : ρ) (h : r ∈ rules) : grp r ∈ processedGroups grp rules := by
  rw [processedGroups, List.mem_reverse]
  exact (List.perm_insertionSort _ _).mem_iff.mpr
    (mem_collectGroups_of_mem grp r rules [] h)

theorem eventGroup_of_mem_groupEvents {ρ : Type} (grp : ρ → Int)
    (rules : List ρ) (g : Int) (e : SchedEvent ρ)
    (h : e ∈ groupEvents grp rules g) : eventGroup grp e = g := by
  rcases List.mem_append.mp h with h1 | h1 <;>
  · obtain ⟨r, hr, rfl⟩ := List.mem_map.mp h1
    have := List.of_mem_filter hr
    simpa [eventGroup, SchedEvent.rule] using of_decide_eq_true this

theorem pairwise_of_mem {α : Type} (R : α → α → Prop) (l : List α)
    (h : ∀ a ∈ l, ∀ b ∈ l, R a b) : l.Pairwise R := by
  induction l with
  | nil => exact List.Pairwise.nil
  | cons a as ih =>
    refine List.Pairwise.cons
      (fun b hb => h a (List.mem_cons_self a as) b (List.mem_cons_of_mem _ hb)) ?_
    exact ih fun x hx y hy => h x (List.mem_cons_of_mem _ hx) y (List.mem_cons_of_mem _ hy)

theorem schedTrace_pairwise_groups {ρ : Type} (grp : ρ → Int) (rules : List ρ) :
    (schedTrace grp rules).Pairwise
      (fun a b => eventGroup grp a ≤ eventGroup grp b) := by
  rw [schedTrace]
  have hsorted := processedGroups_sorted grp rules
  revert hsorted
  generalize processedGroups grp rules = gs
  induction gs with
  | nil => intro _; exact List.Pairwise.nil
  | cons g gs ih =>
    intro hsorted
    rw [List.flatMap_cons]
    refine List.pairwise_append.mpr ⟨?_, ih hsorted.of_cons, ?_⟩
    · refine pairwise_of_mem _ _ fun a ha b hb => ?_
      rw [eventGroup_of_mem_groupEvents grp rules g a ha,
        eventGroup_of_mem_groupEvents grp rules g b hb]
    · intro a ha b hb
      obtain ⟨g2, hg2, hb2⟩ := List.mem_flatMap.mp hb
      rw [eventGroup_of_mem_groupEvents grp rules g a ha,
        eventGroup_of_mem_groupEvents grp rules g2 b hb2]
      exact le_of_lt (List.rel_of_sorted_cons hsorted g2 hg2)

theorem launch_finish_mem_schedTrace {ρ : Type} (grp : ρ → Int)
    (rules : List ρ) (r : ρ) (h : r ∈ rules) :
    SchedEvent.launch r ∈ schedTrace grp rules ∧
      SchedEvent.finish r ∈ schedTrace grp rules := by
  have hg : grp r ∈ processedGroups grp rules :=
    mem_processedGroups_of_mem grp rules r h
  have hr : r ∈ rulesInGroup grp rules (grp r) :=
    List.mem_filter.mpr ⟨h, by simp⟩
  constructor
  · exact List.mem_flatMap.mpr ⟨grp r, hg,
      List.mem_append_left _ (List.mem_map.mpr ⟨r, hr, rfl⟩)⟩
  · exact List.mem_flatMap.mpr ⟨grp r, hg,
      List.mem_append_right _ (List.mem_map.mpr ⟨r, hr, rfl⟩)⟩

/-- Claim C1: the scheduler processes groups in strictly ascending order of
their integer keys; along the event trace the group tag never decreases (so
for groups M < N every event of group M — launch and finish — precedes every
event of group N); and every rule is both launched and finished within the
trace.  The trace is the per-group launch-all-then-join-all loop of
`masker.main`. -/
theorem scheduler_ascending_groups_with_barrier {ρ : Type} (grp : ρ → Int)
    (rules : List ρ) :
    (processedGroups grp rules).Sorted (· < ·) ∧
    (schedTrace grp rules).Pairwise
      (fun a b => eventGroup grp a ≤ eventGroup grp b) ∧
    (∀ r ∈ rules, SchedEvent.launch r ∈ schedTrace grp rules ∧
      SchedEvent.finish r ∈ schedTrace grp rules) :=
  ⟨processedGroups_sorted grp rules, schedTrace_pairwise_groups grp rules,
    fun r hr => launch_finish_mem_schedTrace grp rules r hr⟩

/-- Witness for C1: on the spec's example group set {3, 1, 2} (each carried
by one rule, tagged by an identifier), rule ⟨1, 1⟩ of group 1 is launched and
finished in the trace and the processed group order is [1, 2, 3]. -/
theorem scheduler_ascending_groups_with_barrier_witness :
    SchedEvent.launch ((1 : Int), (1 : Nat)) ∈
      schedTrace Prod.fst [((3 : Int), (0 : Nat)), (1, 1), (2, 2)] ∧
    processedGroups Prod.fst [((3 : Int), (0 : Nat)), (1, 1), (2, 2)] =
      [1, 2, 3] :=
  ⟨((scheduler_ascending_groups_with_barrier Prod.fst
      [(3, 0), (1, 1), (2, 2)]).2.2 (1, 1) (by decide)).1, by decide⟩

/-! ### Factory / admission lemmas -/

theorem createRules_ok_forall (env : String → Bool) :
    ∀ (instrs : List Instruction) (rules : List MaskRule),
      createRules env instrs = .ok rules →
      ∀ i ∈ instrs, ∃ r, createRule env i = .ok r := by
  intro instrs
  induction instrs with
  | nil => intro rules _ i hi; cases hi
  | cons a rest ih =>
    intro rules h i hi
    rw [createRules] at h
    cases h1 : createRule env a <;> rw [h1] at h
    · exact absurd h (by simp)
    case ok r =>
      cases h2 : createRules env rest <;> rw [h2] at h
      · exact absurd h (by simp)
      case ok rs =>
        rcases List.mem_cons.mp hi with rfl | hmem
        · exact ⟨r, h1⟩
        · exact ih rs h2 i hmem

/-- Claim C4: the run is fail-fast and all-or-nothing at admission — every
instruction passes through the factory (construction plus validation)
before any rule is executed, so if any instruction fails, the whole run
aborts with no scheduling events (and hence no database mutation); and
conversely a run that executed at all had every instruction admitted. -/
theorem mainRun_fail_fast_all_or_nothing (env : String → Bool)
    (instrs : List Instruction) :
    ((∃ i ∈ instrs, ∀ r, createRule env i ≠ .ok r) →
      ∃ e, mainRun env instrs = .error e) ∧
    (∀ evs, mainRun env instrs = .ok evs →
      ∀ i ∈ instrs, ∃ r, createRule env i = .ok r) := by
  constructor
  · rintro ⟨i, hi, hfail⟩
    cases h : createRules env instrs
    case error e => exact ⟨e, by rw [mainRun, h]⟩
    case ok rules =>
      obtain ⟨r, hr⟩ := createRules_ok_forall env instrs rules h i hi
      exact absurd hr (hfail r)
  · intro evs h i hi
    cases h2 : createRules env instrs <;> rw [mainRun, h2] at h
    · exact absurd h (by simp)
    case ok rules => exact createRules_ok_forall env instrs _ h2 i hi

/-- Witness for C4: an instruction set containing a single instruction with
an unrecognized discriminator makes the whole run abort with an error. -/
theorem mainRun_fail_fast_all_or_nothing_witness :
    ∃ e, mainRun (fun _ => true) [[("rule", FieldVal.s "bogus")]] =
      .error e :=
  (mainRun_fail_fast_all_or_nothing (fun _ => true)
      [[("rule", FieldVal.s "bogus")]]).1
    ⟨[("rule", FieldVal.s "bogus")], by decide, fun r h => by
      rw [show createRule (fun _ => true) [("rule", FieldVal.s "bogus")] =
        Except.error FactoryError.unknownRule from rfl] at h
      exact Except.noConfusion h⟩

theorem createRule_ok_validated (env : String → Bool) (ins : Instruction)
    (r : MaskRule) (h : createRule env ins = .ok r) :
    validateRule env r = .ok () := by
  rw [createRule] at h
  cases h1 : getField ins "rule" <;> rw [h1] at h <;> dsimp only at h
  · exact absurd h (by simp)
  case some d =>
    cases h2 : kindOfDiscriminator d <;> rw [h2] at h <;> dsimp only at h
    · exact absurd h (by simp)
    case some k =>
      cases h3 : getField ins "group" <;> rw [h3] at h <;> dsimp only at h
      · exact absurd h (by simp)
      case some g =>
        cases h4 : collectFields ins (requiredFieldKeys k) <;> rw [h4] at h <;>
          dsimp only at h
        · exact absurd h (by simp)
        case ok flds =>
          cases h5 : validateRule env ⟨k, g, flds⟩ <;> rw [h5] at h <;>
            dsimp only at h
          · exact absurd h (by simp)
          case ok u =>
            cases u
            rw [Except.ok.injEq] at h
            rw [← h]
            exact h5

theorem validateRule_ok_base (env : String → Bool) (r : MaskRule)
    (hk : kindChainsToBase r.kind = true) (h : validateRule env r = .ok ()) :
    baseValidate r = .ok () := by
  cases hb : baseValidate r
  case ok u => cases u; rfl
  case error e =>
    exfalso
    have hdata : dataRuleValidate r = .error e := by rw [dataRuleValidate, hb]
    cases hkind : r.kind <;> rw [validateRule, hkind] at h <;>
      simp only [hkind] at hk <;> first
      | (rw [hdata] at h; exact Except.noConfusion h)
      | (rw [hb] at h; exact Except.noConfusion h)
      | exact Bool.noConfusion hk

theorem baseValidate_ok_group (r : MaskRule) (h : baseValidate r = .ok ()) :
    ∃ g, r.group = .i g ∧ 1 ≤ g := by
  rw [baseValidate] at h
  cases hg : r.group <;> rw [hg] at h <;> dsimp only at h
  case s v => exact Except.noConfusion h
  case i g =>
    split_ifs at h with hlt
    exact ⟨g, rfl, by omega⟩

theorem validateRule_ok_data (env : String → Bool) (r : MaskRule)
    (hk : isDataKind r.kind = true) (h : validateRule env r = .ok ()) :
    dataRuleValidate r = .ok () := by
  cases hd : dataRuleValidate r
  case ok u => cases u; rfl
  case error e =>
    exfalso
    cases hkind : r.kind <;> rw [validateRule, hkind] at h <;>
      simp only [hkind] at hk <;> first
      | (rw [hd] at h; exact Except.noConfusion h)
      | exact Bool.noConfusion hk

theorem dataRuleValidate_ok_fields (r : MaskRule)
    (h : dataRuleValidate r = .ok ()) :
    r.field "database" ≠ some (.s "") ∧ r.field "schema" ≠ some (.s "") ∧
      r.field "table" ≠ some (.s "") := by
  rw [dataRuleValidate] at h
  cases hb : baseValidate r <;> rw [hb] at h <;> dsimp only at h
  case error e => exact Except.noConfusion h
  case ok u =>
    split_ifs at h with h1 h2 h3
    exact ⟨h1, h2, h3⟩

/-- Claim C5 (amended): for the rule variants whose validators chain to the
base `Rule` validation — the six data-mutation rules and the two ad-hoc
rules — a successfully admitted rule always has an integer `group` ≥ 1, and
the data-mutation rules additionally have non-empty `database`, `schema`
and `table`; the six database-object toggle rules never invoke the base
validation, so no such guarantee holds for them (see the
counterexample). -/
theorem group_and_field_validation_for_chaining_rules (env : String → Bool)
    (ins : Instruction) (r : MaskRule) (h : createRule env ins = .ok r) :
    (kindChainsToBase r.kind = true → ∃ g, r.group = .i g ∧ 1 ≤ g) ∧
    (isDataKind r.kind = true →
      r.field "database" ≠ some (.s "") ∧ r.field "schema" ≠ some (.s "") ∧
        r.field "table" ≠ some (.s "")) := by
  have hv := createRule_ok_validated env ins r h
  constructor
  · intro hk
    exact baseValidate_ok_group r (validateRule_ok_base env r hk hv)
  · intro hk
    exact dataRuleValidate_ok_fields r (validateRule_ok_data env r hk hv)

/-- Witness for C5 (amended): a concrete `truncate_table` instruction that
is admitted necessarily carries a positive group. -/
theorem group_and_field_validation_witness :
    ∃ g, (MaskRule.mk RuleKind.truncateTable (FieldVal.i 2)
      [("database", FieldVal.s "mydb"), ("schema", FieldVal.s "dbo"),
       ("table", FieldVal.s "customer")]).group = FieldVal.i g ∧ 1 ≤ g :=
  (group_and_field_validation_for_chaining_rules (fun _ => true)
      [("rule", FieldVal.s "truncate_table"), ("group", FieldVal.i 2),
       ("database", FieldVal.s "mydb"), ("schema", FieldVal.s "dbo"),
       ("table", FieldVal.s "customer")] _ rfl).1 rfl

/-- Counterexample for C5 as stated: a `disable_trigger` instruction with
`group` = 0 passes factory construction and validation (the object-toggle
validators do not chain to the base group check), and the resulting rule is
launched and executed by the scheduler. -/
theorem group_validation_skipped_for_toggle_rules :
    getField toggleInstructionGroupZero "group" = some (FieldVal.i 0) ∧
    createRule (fun _ => true) toggleInstructionGroupZero =
      .ok toggleRuleGroupZero ∧
    mainRun (fun _ => true) [toggleInstructionGroupZero] =
      .ok [SchedEvent.launch toggleRuleGroupZero,
           SchedEvent.finish toggleRuleGroupZero] :=
  ⟨rfl, rfl, rfl⟩

/-! ### Where-clause builder lemmas -/

theorem foldl_renderCondition (l : Record) :
    ∀ base : String,
      l.foldl (fun acc p => acc ++ renderCondition p.1 p.2) base =
        base ++ joinFragments (l.map (fun p => renderCondition p.1 p.2)) := by
  induction l with
  | nil => intro base; simp [joinFragments, String.append_empty]
  | cons p ps ih =>
    intro base
    rw [List.foldl_cons, ih, List.map_cons, joinFragments,
      String.append_assoc]

theorem restrict_record_all_found (record : Record) (v : String → Value) :
    ∀ pk : List String, (∀ c ∈ pk, lookupColumn record c = some (v c)) →
      restrict_record_to_primary_key record pk =
        .ok (pk.map (fun c => (c, v c))) := by
  intro pk
  induction pk with
  | nil => intro _; rfl
  | cons c cs ih =>
    intro h
    rw [restrict_record_to_primary_key,
      h c (List.mem_cons_self c cs),
      ih fun x hx => h x (List.mem_cons_of_mem _ hx)]
    rfl

/-- Claim C6: the where-clause builder restricts the record to the
primary-key columns when a non-empty primary key is given (the clause then
mentions exactly the rendered primary-key conjuncts), conjuncts all record
columns when no primary key is given, and renders each column as `IS NULL`
for null, a bare numeric literal for an integer, and a quoted literal
otherwise, all appended onto the always-true base predicate. -/
theorem where_clause_from_record_spec (record : Record)
    (primary_key : List String) (v : String → Value) :
    (primary_key ≠ [] →
      (∀ c ∈ primary_key, lookupColumn record c = some (v c)) →
      generate_where_clause_from_record record primary_key =
        .ok (defaultWhereClause ++
          joinFragments (primary_key.map (fun c => renderCondition c (v c))))) ∧
    (generate_where_clause_from_record record [] =
      .ok (defaultWhereClause ++
        joinFragments (record.map (fun p => renderCondition p.1 p.2)))) ∧
    (∀ c, renderCondition c .null = " and [" ++ c ++ "] is NULL ") ∧
    (∀ c n, renderCondition c (.int n) =
      " and [" ++ c ++ "] = " ++ toString n ++ " ") ∧
    (∀ c s, renderCondition c (.str s) =
      " and [" ++ c ++ "] = " ++ sq ++ s ++ sq ++ " ") := by
  refine ⟨?_, ?_, fun c => rfl, fun c n => rfl, fun c s => rfl⟩
  · intro hne hall
    rw [generate_where_clause_from_record, if_pos hne,
      restrict_record_all_found record v primary_key hall]
    dsimp only
    rw [foldl_renderCondition, List.map_map]
    rfl
  · rw [generate_where_clause_from_record, if_neg (by simp)]
    dsimp only
    rw [foldl_renderCondition]

/-- Witness for C6: the spec's example — record
`{"id": 5, "name": "Ann", "note": null}` with primary key `["id"]` yields a
clause mentioning only `id`, and with no primary key it conjuncts all three
columns. -/
theorem where_clause_from_record_spec_witness :
    generate_where_clause_from_record
      [("id", Value.int 5), ("name", Value.str "Ann"), ("note", Value.null)]
      ["id"] =
      .ok (defaultWhereClause ++
        joinFragments [renderCondition "id" (Value.int 5)]) ∧
    generate_where_clause_from_record
      [("id", Value.int 5), ("name", Value.str "Ann"), ("note", Value.null)]
      [] =
      .ok (defaultWhereClause ++
        joinFragments [renderCondition "id" (Value.int 5),
          renderCondition "name" (Value.str "Ann"),
          renderCondition "note" Value.null]) :=
  ⟨(where_clause_from_record_spec
      [("id", Value.int 5), ("name", Value.str "Ann"), ("note", Value.null)]
      ["id"] (fun _ => Value.int 5)).1 (by decide) (by decide),
   (where_clause_from_record_spec
      [("id", Value.int 5), ("name", Value.str "Ann"), ("note", Value.null)]
      [] (fun _ => Value.null)).2.1⟩

/-- Claim C7: for every object-toggle rule (trigger, check constraint,
foreign key; enable and disable), validation rejects a wildcard `database`
or `table` regardless of the other fields, and execution resolves exactly
one granularity in precedence order: a wildcard `schema` invokes the
whole-database operation (ignoring table and object name), else a wildcard
object name invokes the whole-table operation, else the single-named-object
operation. -/
theorem object_toggle_validation_and_precedence (d s t o : String) :
    ((d = "*" ∨ t = "*") →
      objectToggleValidateFields ⟨d, s, t, o⟩ = .error ()) ∧
    (s = "*" →
      disableTriggerExecute ⟨d, s, t, o⟩ =
        .disable_all_triggers_for_database d ∧
      enableTriggerExecute ⟨d, s, t, o⟩ =
        .enable_all_triggers_for_database d ∧
      disableCheckConstraintExecute ⟨d, s, t, o⟩ =
        .disable_all_check_constraints_for_database d ∧
      enableCheckConstraintExecute ⟨d, s, t, o⟩ =
        .enable_all_check_constraints_for_database d ∧
      disableForeignKeyExecute ⟨d, s, t, o⟩ =
        .disable_all_foreign_keys_for_database d ∧
      enableForeignKeyExecute ⟨d, s, t, o⟩ =
        .enable_all_foreign_keys_for_database d) ∧
    (s ≠ "*" → o = "*" →
      disableTriggerExecute ⟨d, s, t, o⟩ =
        .disable_all_triggers_for_table d s t ∧
      enableTriggerExecute ⟨d, s, t, o⟩ =
        .enable_all_triggers_for_table d s t ∧
      disableCheckConstraintExecute ⟨d, s, t, o⟩ =
        .disable_all_check_constraints_for_table d s t ∧
      enableCheckConstraintExecute ⟨d, s, t, o⟩ =
        .enable_all_check_constraints_for_table d s t ∧
      disableForeignKeyExecute ⟨d, s, t, o⟩ =
        .disable_all_foreign_keys_for_table d s t ∧
      enableForeignKeyExecute ⟨d, s, t, o⟩ =
        .enable_all_foreign_keys_for_table d s t) ∧
    (s ≠ "*" → o ≠ "*" →
      disableTriggerExecute ⟨d, s, t, o⟩ =
        .disable_single_trigger_for_table d s t o ∧
      enableTriggerExecute ⟨d, s, t, o⟩ =
        .enable_single_trigger_for_table d s t o ∧
      disableCheckConstraintExecute ⟨d, s, t, o⟩ =
        .disable_single_check_constraint_for_table d s t o ∧
      enableCheckConstraintExecute ⟨d, s, t, o⟩ =
        .enable_single_check_constraint_for_table d s t o ∧
      disableForeignKeyExecute ⟨d, s, t, o⟩ =
        .disable_single_foreign_key_for_table d s t o ∧
      enableForeignKeyExecute ⟨d, s, t, o⟩ =
        .enable_single_foreign_key_for_table d s t o) := by
  refine ⟨?_, ?_, ?_, ?_⟩
  · intro h
    unfold objectToggleValidateFields
    dsimp only
    split_ifs with h1 h2
    · rfl
    · rfl
    · rcases h with h | h
      · exact absurd h h1
      · exact absurd h h2
  · intro hs
    refine ⟨?_, ?_, ?_, ?_, ?_, ?_⟩ <;>
      simp [disableTriggerExecute, enableTriggerExecute,
        disableCheckConstraintExecute, enableCheckConstraintExecute,
        disableForeignKeyExecute, enableForeignKeyExecute, hs]
  · intro hs ho
    refine ⟨?_, ?_, ?_, ?_, ?_, ?_⟩ <;>
      simp [disableTriggerExecute, enableTriggerExecute,
        disableCheckConstraintExecute, enableCheckConstraintExecute,
        disableForeignKeyExecute, enableForeignKeyExecute, hs, ho]
  · intro hs ho
    refine ⟨?_, ?_, ?_, ?_, ?_, ?_⟩ <;>
      simp [disableTriggerExecute, enableTriggerExecute,
        disableCheckConstraintExecute, enableCheckConstraintExecute,
        disableForeignKeyExecute, enableForeignKeyExecute, hs, ho]

/-- Witness for C7: concrete rules exercising the wildcard rejection and
each precedence tier. -/
theorem object_toggle_validation_and_precedence_witness :
    objectToggleValidateFields ⟨"*", "dbo", "customer", "trg"⟩ = .error () ∧
    disableTriggerExecute ⟨"db", "*", "customer", "trg"⟩ =
      .disable_all_triggers_for_database "db" ∧
    enableForeignKeyExecute ⟨"db", "dbo", "customer", "*"⟩ =
      .enable_all_foreign_keys_for_table "db" "dbo" "customer" ∧
    disableCheckConstraintExecute ⟨"db", "dbo", "customer", "ck"⟩ =
      .disable_single_check_constraint_for_table "db" "dbo" "customer" "ck" :=
  ⟨(object_toggle_validation_and_precedence "*" "dbo" "customer" "trg").1
      (Or.inl rfl),
   ((object_toggle_validation_and_precedence "db" "*" "customer" "trg").2.1
      rfl).1,
   (((object_toggle_validation_and_precedence "db" "dbo" "customer" "*").2.2.1
      (by decide) rfl).2.2.2.2.2),
   (((object_toggle_validation_and_precedence "db" "dbo" "customer"
      "ck").2.2.2 (by decide) (by decide)).2.2.1)⟩

/-- Claim C8: the "simple" date-variance strategy shifts every matched
non-null row by one identical random day offset, and for every possible
value of the server-side draw `rand()` ∈ [0, 1) that offset lies within
[1, range] when the configured range is positive and within [range, -1]
when it is negative. -/
theorem date_variance_simple_offset_bounds (range : Int) (r : ℚ)
    (h0 : 0 ≤ r) (h1 : r < 1) :
    (0 < range → 1 ≤ simple_method_offset range r ∧
      simple_method_offset range r ≤ range) ∧
    (range < 0 → range ≤ simple_method_offset range r ∧
      simple_method_offset range r ≤ -1) ∧
    (∀ dates : List Int, date_variance_simple_shift range r dates =
      dates.map (fun d0 => d0 + simple_method_offset range r)) := by
  refine ⟨?_, ?_, fun dates => rfl⟩
  · intro hpos
    unfold simple_method_offset update_date_random_offset simple_method_range_min
    rw [if_pos hpos]
    have h2 : ((range : ℚ) + 1 - ((1 : Int) : ℚ)) = (range : ℚ) := by
      push_cast; ring
    rw [h2]
    have hflo : (0 : Int) ≤ ⌊r * (range : ℚ)⌋ :=
      Int.le_floor.mpr (by
        push_cast
        exact mul_nonneg h0 (by exact_mod_cast hpos.le))
    have hfhi : ⌊r * (range : ℚ)⌋ < range :=
      Int.floor_lt.mpr (by
        have hq : (0 : ℚ) < (range : ℚ) := by exact_mod_cast hpos
        have := mul_lt_mul_of_pos_right h1 hq
        simpa using this)
    omega
  · intro hneg
    unfold simple_method_offset update_date_random_offset simple_method_range_min
    rw [if_neg (by omega)]
    have h2 : ((range : ℚ) + 1 - ((-1 : Int) : ℚ)) = (range : ℚ) + 2 := by
      push_cast; ring
    rw [h2]
    have hcle : (range : ℚ) + 2 ≤ 1 := by
      have hle : range ≤ -1 := by omega
      have : (range : ℚ) ≤ -1 := by exact_mod_cast hle
      linarith
    have hrc : r * ((range : ℚ) + 2) ≤ r := by
      have := mul_le_mul_of_nonneg_left hcle h0
      simpa using this
    have hfhi : ⌊r * ((range : ℚ) + 2)⌋ < 1 :=
      Int.floor_lt.mpr (by push_cast; linarith)
    have hflo : range + 1 ≤ ⌊r * ((range : ℚ) + 2)⌋ := by
      apply Int.le_floor.mpr
      push_cast
      nlinarith [mul_nonneg (by linarith : (0 : ℚ) ≤ 1 - ((range : ℚ) + 2))
        (by linarith : (0 : ℚ) ≤ 1 - r)]
    omega

/-- Witness for C8: for range = -5 and the concrete draw r = 1/2, the
applied offset lies in [-5, -1]. -/
theorem date_variance_simple_offset_bounds_witness :
    -5 ≤ simple_method_offset (-5) (1 / 2) ∧
      simple_method_offset (-5) (1 / 2) ≤ -1 :=
  (date_variance_simple_offset_bounds (-5) (1 / 2) (by norm_num)
    (by norm_num)).2.1 (by norm_num)

/-! ### Fake-SSN execution lemmas -/

theorem find_unique_ok_not_mem (gen : Nat → String) (used : List String) :
    ∀ (fuel k : Nat) (c : String) (k2 : Nat),
      find_unique_invalid_ssn gen used k fuel = .ok (c, k2) → c ∉ used := by
  intro fuel
  induction fuel with
  | zero => intro k c k2 h; exact absurd h (by simp [find_unique_invalid_ssn])
  | succ fuel ih =>
    intro k c k2 h
    rw [find_unique_invalid_ssn] at h
    split_ifs at h with hmem
    · exact ih (k + 1) c k2 h
    · rw [Except.ok.injEq, Prod.mk.injEq] at h
      rw [← h.1]
      exact hmem

theorem find_unique_error_iff (gen : Nat → String) (used : List String) :
    ∀ (fuel k : Nat),
      find_unique_invalid_ssn gen used k fuel = .error () ↔
        ∀ j < fuel, gen (k + j) ∈ used := by
  intro fuel
  induction fuel with
  | zero =>
    intro k
    constructor
    · intro _ j hj; omega
    · intro _; rfl
  | succ fuel ih =>
    intro k
    rw [find_unique_invalid_ssn]
    split_ifs with hmem
    · rw [ih (k + 1)]
      constructor
      · intro h j hj
        cases j with
        | zero => simpa using hmem
        | succ j =>
          have := h j (by omega)
          have harith : k + 1 + j = k + (j + 1) := by omega
          rw [harith] at this
          exact this
      · intro h j hj
        have := h (j + 1) (by omega)
        have harith : k + (j + 1) = k + 1 + j := by omega
        rw [harith] at this
        exact this
    · constructor
      · intro h; exact absurd h (by simp)
      · intro h
        have := h 0 (by omega)
        simp only [Nat.add_zero] at this
        exact absurd this hmem

theorem execute_fake_ssn_loop_nodup (gen : Nat → String) :
    ∀ (records : List Record) (used : List String) (k : Nat)
      (ups : List (Record × String)), used.Nodup →
      execute_fake_ssn_loop gen records used k = .ok ups →
      (used ++ ups.map Prod.snd).Nodup := by
  intro records
  induction records with
  | nil =>
    intro used k ups hnd h
    rw [execute_fake_ssn_loop, Except.ok.injEq] at h
    rw [← h]
    simpa using hnd
  | cons rec rest ih =>
    intro used k ups hnd h
    rw [execute_fake_ssn_loop] at h
    cases h1 : find_unique_invalid_ssn gen used k maxRetryAttempts <;>
      rw [h1] at h <;> dsimp only at h
    · exact absurd h (by simp)
    case ok p =>
      obtain ⟨c, k2⟩ := p
      cases h2 : execute_fake_ssn_loop gen rest (used ++ [c]) k2 <;>
        rw [h2] at h <;> dsimp only at h
      · exact absurd h (by simp)
      case ok tail =>
        rw [Except.ok.injEq] at h
        have hc : c ∉ used := find_unique_ok_not_mem gen used _ k c k2 h1
        have hnd2 : (used ++ [c]).Nodup := by
          refine List.nodup_append.mpr ⟨hnd, List.nodup_singleton c, ?_⟩
          intro x hx
          simp only [List.mem_singleton]
          intro heq
          exact hc (heq ▸ hx)
        have := ih (used ++ [c]) k2 tail hnd2 h2
        rw [← h]
        simpa [List.append_assoc] using this

theorem execute_fake_ssn_loop_fst (gen : Nat → String) :
    ∀ (records : List Record) (used : List String) (k : Nat)
      (ups : List (Record × String)),
      execute_fake_ssn_loop gen records used k = .ok ups →
      ups.map Prod.fst = records := by
  intro records
  induction records with
  | nil =>
    intro used k ups h
    rw [execute_fake_ssn_loop, Except.ok.injEq] at h
    rw [← h]
    rfl
  | cons rec rest ih =>
    intro used k ups h
    rw [execute_fake_ssn_loop] at h
    cases h1 : find_unique_invalid_ssn gen used k maxRetryAttempts <;>
      rw [h1] at h <;> dsimp only at h
    · exact absurd h (by simp)
    case ok p =>
      obtain ⟨c, k2⟩ := p
      cases h2 : execute_fake_ssn_loop gen rest (used ++ [c]) k2 <;>
        rw [h2] at h <;> dsimp only at h
      · exact absurd h (by simp)
      case ok tail =>
        rw [Except.ok.injEq] at h
        rw [← h, List.map_cons, ih (used ++ [c]) k2 tail h2]

/-- Claim C3: within one execution of the fake-SSN substitution rule all
assigned SSN values are pairwise distinct; a candidate colliding with an
already-assigned value consumes one unit of the retry budget of
`maxRetryAttempts` = 10 total generation attempts per row ("9 retries after
the first attempt"), and the inner loop fails with the generation-exhausted
error exactly when all 10 consecutive candidates for a row collide — it
never assigns a duplicate. -/
theorem fake_ssn_uniqueness_and_retry_bound (gen : Nat → String)
    (records : List Record) (ups : List (Record × String))
    (used : List String) (k : Nat) :
    (execute_fake_ssn gen records = .ok ups → (ups.map Prod.snd).Nodup) ∧
    maxRetryAttempts = 10 ∧
    (find_unique_invalid_ssn gen used k maxRetryAttempts = .error () ↔
      ∀ j < maxRetryAttempts, gen (k + j) ∈ used) := by
  refine ⟨?_, rfl, find_unique_error_iff gen used maxRetryAttempts k⟩
  intro h
  have := execute_fake_ssn_loop_nodup gen records [] 0 ups List.nodup_nil h
  simpa using this

/-- Witness for C3: a generator emitting distinct values fills two rows
with distinct SSNs, and a generator stuck on an already-used value
exhausts the 10-attempt budget. -/
theorem fake_ssn_uniqueness_and_retry_bound_witness :
    List.Nodup ["0", "1"] ∧
    find_unique_invalid_ssn (fun _ => "a") ["a"] 0 maxRetryAttempts =
      .error () :=
  ⟨(fake_ssn_uniqueness_and_retry_bound (fun n => toString n) [[], []]
      [([], "0"), ([], "1")] [] 0).1 rfl,
   (fake_ssn_uniqueness_and_retry_bound (fun _ => "a") [] [] ["a"] 0).2.2.mpr
      (fun j _ => by simp)⟩

theorem fake_string_rows_updated_filter :
    ∀ (records : List Record) (col : String),
      fake_string_rows_updated records col =
        records.filter (fun rec => !(recColIsNull rec col)) := by
  intro records
  induction records with
  | nil => intro col; rfl
  | cons rec rest ih =>
    intro col
    rw [fake_string_rows_updated, List.filter_cons]
    by_cases h : recColIsNull rec col
    · rw [if_pos h, ih]
      simp [h]
    · rw [if_neg h, ih]
      simp [h]

/-- Claim C10: with `ignore_null` = "no" the fake-SSN rule selects rows
with the unfiltered default where-clause and assigns a freshly generated
SSN to every returned row — including rows whose target column is null
(no post-read null skip) — whereas the fake-string substitution rule skips
every row whose target column is null before issuing its per-row update. -/
theorem fake_ssn_no_null_skip_vs_fake_string (gen : Nat → String)
    (records : List Record) (ups : List (Record × String)) (col : String) :
    (execute_fake_ssn gen records = .ok ups → ups.map Prod.fst = records) ∧
    fake_ssn_select_where_clause "no" col = defaultWhereClause ∧
    fake_string_rows_updated records col =
      records.filter (fun rec => !(recColIsNull rec col)) := by
  refine ⟨?_, rfl, fake_string_rows_updated_filter records col⟩
  intro h
  exact execute_fake_ssn_loop_fst gen records [] 0 ups h

/-- Witness for C10: on two rows — one with a null target column — the
fake-SSN rule updates both rows (the null row included), while the
fake-string loop updates only the non-null row. -/
theorem fake_ssn_no_null_skip_vs_fake_string_witness :
    ([([("ssn", Value.null)], "0"), ([("ssn", Value.str "x")], "1")].map
        Prod.fst =
      [[("ssn", Value.null)], [("ssn", Value.str "x")]]) ∧
    fake_string_rows_updated
        [[("ssn", Value.null)], [("ssn", Value.str "x")]] "ssn" =
      [[("ssn", Value.str "x")]] :=
  ⟨(fake_ssn_no_null_skip_vs_fake_string (fun n => toString n)
      [[("ssn", Value.null)], [("ssn", Value.str "x")]]
      [([("ssn", Value.null)], "0"), ([("ssn", Value.str "x")], "1")]
      "ssn").1 rfl,
   by
    rw [(fake_ssn_no_null_skip_vs_fake_string (fun n => toString n)
      [[("ssn", Value.null)], [("ssn", Value.str "x")]] [] "ssn").2.2]
    decide⟩

/-- Counterexample for C9 as stated: a constraint violation raised by the
driver inside a SQL Server gateway write operation is not re-raised to the
caller — `SqlServerDatabaseContext.execute` catches it and only logs it,
returning normally. -/
theorem sql_server_write_failure_not_reraised :
    sqlServerGatewayWriteResult (.failure "constraint violation") ≠
      CallResult.raisedToCaller "constraint violation" := by
  decide

/-- Claim C9 (amended): driver failures are propagated unchanged, with no
retry, by both contexts' `query` methods and by the Postgres context's
`execute` method; but `SqlServerDatabaseContext.execute` — through which
every SQL Server gateway write (update, delete, truncate, DDL toggle)
runs — catches every driver exception and only logs it, returning
normally, so SQL Server write failures do not terminate the rule's task. -/
theorem driver_failure_propagation_by_context (e : String) :
    sqlServerContextQuery (.failure e) = .raisedToCaller e ∧
    postgresContextQuery (.failure e) = .raisedToCaller e ∧
    postgresContextExecute (.failure e) = .raisedToCaller e ∧
    sqlServerGatewayWriteResult (.failure e) = .caughtAndLogged e :=
  ⟨rfl, rfl, rfl, rfl⟩

end Mask
